import Mathlib

/-!
Shallow embedding of the simulation core of `walk-the-dog`
(`src/game.rs`), a side-scrolling endless runner: the player avatar
state machine (`RedHatBoyStateMachine`), the obstacle system
(`Barrier` / `Platform`), the world aggregate (`Walk`) and the outer
game lifecycle machine (`WalkTheDogStateMachine`).

Conventions of the embedding:
* Rust `i16` fields are modelled as `Int`; the constants involved
  (floor 479, jump speed -27, gravity 1, terminal velocity 18,
  obstacle coordinates in the hundreds) keep every quantity reached by
  the verified scenarios far from the `i16` bounds, so two's-complement
  wrapping is never exercised.
* The `u8` animation-frame counter is modelled as `Nat`; the source
  guards every increment by `frame < frame_count` with
  `frame_count ≤ 35`, so `u8` overflow is unreachable.
* Opaque browser handles (`HtmlImageElement`, `Audio`, `Sound`,
  `Renderer`, `Rc<SpriteSheet>` used only for drawing) carry no
  simulation state and are omitted; `play_jump_sound` only logs a
  playback failure and returns the context unchanged, so it is the
  identity here.
* Randomness (`thread_rng().gen_range(0..2)`) is passed in as an
  explicit `Nat` argument, and the one-shot "new game" channel poll
  (`new_game_pressed`) as an explicit `Bool` argument.
* A missing sprite-sheet cell makes the Rust code panic
  (`expect("Cell not found")`); collision checks here return the boy
  unchanged in that (never-reached) case, and every concrete scenario
  below supplies the needed cells.
-/

/-- `engine::Point` — integer screen-space coordinates. -/
structure Point where
  x : Int
  y : Int
deriving DecidableEq, Repr

/-- `engine::Rect` — axis-aligned box `{position, width, height}`. -/
structure Rect where
  position : Point
  width : Int
  height : Int
deriving DecidableEq, Repr

namespace Rect

/-- `Rect::new_from_x_y`. -/
def new_from_x_y (x y width height : Int) : Rect :=
  { position := ⟨x, y⟩, width := width, height := height }

/-- `Rect::default()` — all fields zero. -/
def default : Rect := new_from_x_y 0 0 0 0

def x (r : Rect) : Int := r.position.x

def y (r : Rect) : Int := r.position.y

/-- `Rect::right` — the right-edge query: `x + width`. -/
def right (r : Rect) : Int := r.x + r.width

def bottom (r : Rect) : Int := r.y + r.height

/-- Modelled from the spec: the new `engine.rs` defining the
axis-aligned intersection test is not under `src/`; the spec says
`Rect` "supports intersection test" between axis-aligned boxes, which
is the standard strict-overlap test on both axes. -/
def intersects (r s : Rect) : Bool :=
  r.x < s.right && r.right > s.x && r.y < s.bottom && r.bottom > s.y

/-- `Rect::set_x` — moves the box, keeping its size. -/
def set_x (r : Rect) (x : Int) : Rect :=
  { r with position := ⟨x, r.position.y⟩ }

end Rect

/-- Modelled from the spec: the new `engine.rs` defining `Image` is not
under `src/`; the spec says an image has a position and a bounding box
and supports draw, horizontal move, right-edge query and `set_x`. The
pixel handle is omitted. -/
structure Image where
  position : Point
  width : Int
  height : Int
deriving DecidableEq, Repr

namespace Image

def bounding_box (i : Image) : Rect :=
  { position := i.position, width := i.width, height := i.height }

def right (i : Image) : Int := i.bounding_box.right

def set_x (i : Image) (x : Int) : Image :=
  { i with position := ⟨x, i.position.y⟩ }

def move_horizontally (i : Image) (dx : Int) : Image :=
  i.set_x (i.position.x + dx)

end Image

/-- `engine::SheetRect` — a sprite cell's frame in the sheet. -/
structure SheetRect where
  x : Int
  y : Int
  w : Int
  h : Int
deriving DecidableEq, Repr

/-- `engine::Cell` — one sprite-sheet entry: its frame plus the
source-size offset used when positioning the sprite. -/
structure Cell where
  frame : SheetRect
  sprite_source_size : Point
deriving DecidableEq, Repr

/-- `engine::Sheet` — the `HashMap<String, Cell>` of sprite frames,
modelled as an association list. -/
def Sheet : Type := List (String × Cell)

instance : DecidableEq Sheet := by
  unfold Sheet
  infer_instance

def Sheet.get (s : Sheet) (name : String) : Option Cell :=
  (s.find? (fun p => p.1 = name)).map (·.2)

/-- `engine::KeyState` restricted to the fixed key set the game polls. -/
structure KeyState where
  arrowRight : Bool
  space : Bool
  arrowDown : Bool
deriving DecidableEq, Repr

namespace rhb

/-! Constants of `mod red_hat_boy_states`. -/

def HEIGHT : Int := 600
def FLOOR : Int := 479
def PLAYER_HEIGHT : Int := HEIGHT - FLOOR
def STARTING_POINT : Int := -20
def IDLE_FRAMES : Nat := 29
def RUNNING_FRAMES : Nat := 23
def JUMPING_FRAMES : Nat := 35
def SLIDING_FRAMES : Nat := 14
def FALLING_FRAMES : Nat := 29
def RUNNING_SPEED : Int := 3
def JUMP_SPEED : Int := -27
def GRAVITY : Int := 1
def TERMINAL_VELOCITY : Int := 18

/-- `RedHatBoyContext` — frame counter, position and velocity (the
opaque audio handles are omitted, see the header). -/
structure RedHatBoyContext where
  frame : Nat
  position : Point
  velocity : Point
deriving DecidableEq, Repr

namespace RedHatBoyContext

/-- `RedHatBoyContext::update` — the per-tick physics: gravity capped
at terminal velocity, frame advance with wrap at `frame_count`,
vertical motion, floor clamp. -/
def update (c : RedHatBoyContext) (frame_count : Nat) : RedHatBoyContext :=
  let v : Point :=
    if c.velocity.y < TERMINAL_VELOCITY then
      ⟨c.velocity.x, c.velocity.y + GRAVITY⟩
    else
      c.velocity
  let f : Nat := if c.frame < frame_count then c.frame + 1 else 0
  let py : Int := c.position.y + v.y
  let py' : Int := if py > FLOOR then FLOOR else py
  { frame := f, position := ⟨c.position.x, py'⟩, velocity := v }

def reset_frame (c : RedHatBoyContext) : RedHatBoyContext :=
  { c with frame := 0 }

def set_vertical_velocity (c : RedHatBoyContext) (y : Int) : RedHatBoyContext :=
  { c with velocity := ⟨c.velocity.x, y⟩ }

def run_right (c : RedHatBoyContext) : RedHatBoyContext :=
  { c with velocity := ⟨c.velocity.x + RUNNING_SPEED, c.velocity.y⟩ }

def stop (c : RedHatBoyContext) : RedHatBoyContext :=
  { c with velocity := ⟨0, c.velocity.y⟩ }

/-- `RedHatBoyContext::set_on` — place the player's feet on the given
surface y: `position.y = position - PLAYER_HEIGHT`. -/
def set_on (c : RedHatBoyContext) (position : Int) : RedHatBoyContext :=
  { c with position := ⟨c.position.x, position - PLAYER_HEIGHT⟩ }

/-- `play_jump_sound` only logs on failure; state-wise it is `id`. -/
def play_jump_sound (c : RedHatBoyContext) : RedHatBoyContext := c

/-- The fresh context of `RedHatBoyState::<Idle>::new`. -/
def initial : RedHatBoyContext :=
  { frame := 0, position := ⟨STARTING_POINT, FLOOR⟩, velocity := ⟨0, 0⟩ }

end RedHatBoyContext

/-! Per-state transition bodies of `mod red_hat_boy_states`.  The Rust
typestate `RedHatBoyState<S>` carries only the context plus the
zero-sized state tag, so each method is a function on the context. -/

/-- `RedHatBoyState<Idle>::run` — into Running. -/
def idle_run (c : RedHatBoyContext) : RedHatBoyContext :=
  c.reset_frame.run_right

/-- `RedHatBoyState<Running>::jump` — into Jumping. -/
def running_jump (c : RedHatBoyContext) : RedHatBoyContext :=
  (c.reset_frame.set_vertical_velocity JUMP_SPEED).play_jump_sound

/-- `RedHatBoyState<Running>::slide` — into Sliding. -/
def running_slide (c : RedHatBoyContext) : RedHatBoyContext :=
  c.reset_frame

/-- `knock_out` of Running, Jumping and Sliding — into Falling. -/
def knock_out_ctx (c : RedHatBoyContext) : RedHatBoyContext :=
  c.reset_frame.stop

/-- `RedHatBoyState<Running>::land_on` / `<Sliding>::land_on` — stay in
the same family, feet set on the surface. -/
def land_on_ctx (c : RedHatBoyContext) (position : Int) : RedHatBoyContext :=
  c.set_on position

/-- `RedHatBoyState<Jumping>::land_on` — into Running, frame reset. -/
def jumping_land_on (c : RedHatBoyContext) (position : Int) : RedHatBoyContext :=
  c.reset_frame.set_on position

/-- `RedHatBoyState<Sliding>::stand` — into Running. -/
def sliding_stand (c : RedHatBoyContext) : RedHatBoyContext :=
  c.reset_frame

end rhb

open rhb

/-- `RedHatBoyStateMachine` — the closed variant of typestates, each
wrapping its context. -/
inductive RedHatBoyStateMachine where
  | idle (c : RedHatBoyContext)
  | running (c : RedHatBoyContext)
  | sliding (c : RedHatBoyContext)
  | jumping (c : RedHatBoyContext)
  | falling (c : RedHatBoyContext)
  | knockedOut (c : RedHatBoyContext)
deriving DecidableEq, Repr

/-- `game::Event` — the player state machine's input alphabet. -/
inductive Event where
  | run
  | slide
  | update
  | jump
  | knockOut
  | land (position : Int)
deriving DecidableEq, Repr

namespace RedHatBoyStateMachine

/-- `RedHatBoyState<Idle>::update`. -/
def idleUpdate (c : RedHatBoyContext) : RedHatBoyStateMachine :=
  idle (c.update IDLE_FRAMES)

/-- `RedHatBoyState<Running>::update`. -/
def runningUpdate (c : RedHatBoyContext) : RedHatBoyStateMachine :=
  running (c.update RUNNING_FRAMES)

/-- `RedHatBoyState<Jumping>::update` — lands into Running as soon as
the post-physics `position.y` reaches the floor. -/
def jumpingUpdate (c : RedHatBoyContext) : RedHatBoyStateMachine :=
  let c' := c.update JUMPING_FRAMES
  if c'.position.y ≥ FLOOR then
    running (jumping_land_on c' HEIGHT)
  else
    jumping c'

/-- `RedHatBoyState<Sliding>::update` — stands back up into Running
once the frame counter reaches `SLIDING_FRAMES`. -/
def slidingUpdate (c : RedHatBoyContext) : RedHatBoyStateMachine :=
  let c' := c.update SLIDING_FRAMES
  if c'.frame ≥ SLIDING_FRAMES then
    running (sliding_stand c')
  else
    sliding c'

/-- `RedHatBoyState<Falling>::update` — becomes terminal KnockedOut
once the frame counter reaches `FALLING_FRAMES`. -/
def fallingUpdate (c : RedHatBoyContext) : RedHatBoyStateMachine :=
  let c' := c.update FALLING_FRAMES
  if c'.frame ≥ FALLING_FRAMES then
    knockedOut c'
  else
    falling c'

/-- `RedHatBoyStateMachine::transition` — the total transition
function; unmatched (state, event) pairs return `self` unchanged. -/
def transition (m : RedHatBoyStateMachine) (e : Event) : RedHatBoyStateMachine :=
  match m, e with
  | idle c, .run => running (idle_run c)
  | running c, .jump => jumping (running_jump c)
  | running c, .slide => sliding (running_slide c)
  | idle c, .update => idleUpdate c
  | running c, .update => runningUpdate c
  | jumping c, .update => jumpingUpdate c
  | sliding c, .update => slidingUpdate c
  | falling c, .update => fallingUpdate c
  | running c, .knockOut => falling (knock_out_ctx c)
  | jumping c, .knockOut => falling (knock_out_ctx c)
  | sliding c, .knockOut => falling (knock_out_ctx c)
  | jumping c, .land p => running (jumping_land_on c p)
  | running c, .land p => running (land_on_ctx c p)
  | sliding c, .land p => sliding (land_on_ctx c p)
  | _, _ => m

/-- `RedHatBoyStateMachine::context`. -/
def context : RedHatBoyStateMachine → RedHatBoyContext
  | idle c | running c | sliding c | jumping c | falling c | knockedOut c => c

/-- `RedHatBoyStateMachine::frame_name`. -/
def frameName : RedHatBoyStateMachine → String
  | idle _ => "Idle"
  | running _ => "Run"
  | sliding _ => "Slide"
  | jumping _ => "Jump"
  | falling _ => "Dead"
  | knockedOut _ => "Dead"

/-- `RedHatBoyStateMachine::update` — one tick. -/
def update (m : RedHatBoyStateMachine) : RedHatBoyStateMachine :=
  m.transition .update

/-- `RedHatBoyStateMachine::knocked_out`. -/
def knocked_out : RedHatBoyStateMachine → Bool
  | knockedOut _ => true
  | _ => false

/-- Iterated ticks: `updateIter n m` applies `update` `n` times. -/
def updateIter : Nat → RedHatBoyStateMachine → RedHatBoyStateMachine
  | 0, m => m
  | n + 1, m => updateIter n m.update

/-- Folding a whole event sequence through `transition`. -/
def run_events (m : RedHatBoyStateMachine) (es : List Event) : RedHatBoyStateMachine :=
  es.foldl transition m

end RedHatBoyStateMachine

/-- `game::RedHatBoy` — the state machine plus its sprite sheet (the
`HtmlImageElement` pixel handle is opaque and omitted). -/
structure RedHatBoy where
  state_machine : RedHatBoyStateMachine
  sprite_sheet : Sheet
deriving DecidableEq

namespace RedHatBoy

def run_right (b : RedHatBoy) : RedHatBoy :=
  { b with state_machine := b.state_machine.transition .run }

def slide (b : RedHatBoy) : RedHatBoy :=
  { b with state_machine := b.state_machine.transition .slide }

def jump (b : RedHatBoy) : RedHatBoy :=
  { b with state_machine := b.state_machine.transition .jump }

def update (b : RedHatBoy) : RedHatBoy :=
  { b with state_machine := b.state_machine.update }

def knock_out (b : RedHatBoy) : RedHatBoy :=
  { b with state_machine := b.state_machine.transition .knockOut }

def knocked_out (b : RedHatBoy) : Bool :=
  b.state_machine.knocked_out

def land_on (b : RedHatBoy) (position : Int) : RedHatBoy :=
  { b with state_machine := b.state_machine.transition (.land position) }

def pos_y (b : RedHatBoy) : Int :=
  b.state_machine.context.position.y

def velocity_y (b : RedHatBoy) : Int :=
  b.state_machine.context.velocity.y

def walking_speed (b : RedHatBoy) : Int :=
  b.state_machine.context.velocity.x

/-- `RedHatBoy::frame_name` — `"{state} ({frame / 3 + 1}).png"`. -/
def frame_name (b : RedHatBoy) : String :=
  b.state_machine.frameName ++ " (" ++
    toString (b.state_machine.context.frame / 3 + 1) ++ ").png"

/-- `RedHatBoy::current_sprite`. -/
def current_sprite (b : RedHatBoy) : Option Cell :=
  b.sprite_sheet.get b.frame_name

/-- `RedHatBoy::destination_box`; `none` models the Rust panic on a
missing cell. -/
def destination_box (b : RedHatBoy) : Option Rect :=
  b.current_sprite.map (fun sprite =>
    { position := ⟨b.state_machine.context.position.x + sprite.sprite_source_size.x,
                   b.state_machine.context.position.y + sprite.sprite_source_size.y⟩,
      width := sprite.frame.w,
      height := sprite.frame.h })

/-- `RedHatBoy::bounding_box` — the destination box shrunk by the
fixed offsets (18, 14, 28). -/
def bounding_box (b : RedHatBoy) : Option Rect :=
  b.destination_box.map (fun r =>
    { position := ⟨r.position.x + 18, r.position.y + 14⟩,
      width := r.width - 28,
      height := r.height - 14 })

/-- `RedHatBoy::new` — fresh Idle player on the given sheet. -/
def new (sheet : Sheet) : RedHatBoy :=
  { state_machine := .idle RedHatBoyContext.initial, sprite_sheet := sheet }

/-- `RedHatBoy::reset` — rebuilds via `new`, keeping the sheet (and
the opaque image/audio handles). -/
def reset (b : RedHatBoy) : RedHatBoy :=
  new b.sprite_sheet

end RedHatBoy

/-- `game::Platform` — absolute bounding boxes plus position (the
drawing-only sprite cells and sheet handle are omitted). -/
structure Platform where
  bounding_boxes : List Rect
  position : Point
deriving DecidableEq, Repr

namespace Platform

/-- `Platform::new` — offsets the given relative bounding boxes by the
platform's position. -/
def new (position : Point) (boxes : List Rect) : Platform :=
  { position := position,
    bounding_boxes := boxes.map (fun b =>
      Rect.new_from_x_y (b.x + position.x) (b.y + position.y) b.width b.height) }

/-- `<Platform as Obstacle>::move_horizontally`. -/
def move_horizontally (p : Platform) (x : Int) : Platform :=
  { position := ⟨p.position.x + x, p.position.y⟩,
    bounding_boxes := p.bounding_boxes.map (fun b => b.set_x (b.position.x + x)) }

/-- `<Platform as Obstacle>::right` — the right edge of the LAST
bounding box (boxes are ordered left to right). -/
def right (p : Platform) : Int :=
  (p.bounding_boxes.getLast?.getD Rect.default).right

/-- `<Platform as Obstacle>::check_intersection` — find the first
intersecting box; land when moving down from above the platform top,
knock out otherwise. -/
def check_intersection (p : Platform) (boy : RedHatBoy) : RedHatBoy :=
  match boy.bounding_box with
  | none => boy
  | some bb =>
    match p.bounding_boxes.find? (fun box => bb.intersects box) with
    | none => boy
    | some box_to_land_on =>
      if boy.velocity_y > 0 ∧ boy.pos_y < p.position.y then
        boy.land_on box_to_land_on.y
      else
        boy.knock_out

end Platform

/-- `game::Barrier` — a single image box. -/
structure Barrier where
  image : Image
deriving DecidableEq, Repr

namespace Barrier

/-- `<Barrier as Obstacle>::check_intersection` — any intersection is
an unconditional knock-out. -/
def check_intersection (br : Barrier) (boy : RedHatBoy) : RedHatBoy :=
  match boy.bounding_box with
  | none => boy
  | some bb =>
    if bb.intersects br.image.bounding_box then boy.knock_out else boy

def move_horizontally (br : Barrier) (x : Int) : Barrier :=
  { image := br.image.move_horizontally x }

def right (br : Barrier) : Int := br.image.right

end Barrier

/-- The closed obstacle variant behind the `Obstacle` trait. -/
inductive Obstacle where
  | barrier (b : Barrier)
  | platform (p : Platform)
deriving DecidableEq, Repr

namespace Obstacle

def check_intersection (o : Obstacle) (boy : RedHatBoy) : RedHatBoy :=
  match o with
  | barrier b => b.check_intersection boy
  | platform p => p.check_intersection boy

def move_horizontally (o : Obstacle) (x : Int) : Obstacle :=
  match o with
  | barrier b => barrier (b.move_horizontally x)
  | platform p => platform (p.move_horizontally x)

def right (o : Obstacle) : Int :=
  match o with
  | barrier b => b.right
  | platform p => p.right

end Obstacle

/-- `game::rightmost` — the maximum right edge in an obstacle list,
`0` when the list is empty. -/
def rightmost (obstacle_list : List Obstacle) : Int :=
  ((obstacle_list.map Obstacle.right).max?).getD 0

/-! Segment templates.  `segments.rs` is not under `src/`; the two
template functions are modelled from the spec. -/

/-- The platform's relative bounding boxes of Scenario C: x spans
`[0,60)`, `[60,324)`, `[324,384)` (narrow ends, wide middle), top at
the platform's y. -/
def platformRelativeBoxes : List Rect :=
  [Rect.new_from_x_y 0 0 60 54,
   Rect.new_from_x_y 60 0 264 54,
   Rect.new_from_x_y 324 0 60 54]

/-- A stone barrier image at the given position (representative
55×54 stone dimensions). -/
def stoneImage (x y : Int) : Image :=
  { position := ⟨x, y⟩, width := 55, height := 54 }

/-- Modelled from the spec: `segments::stone_and_platform` is not
under `src/`; per the spec a segment is "a fixed arrangement of one or
more obstacles at relative offsets" positioned starting at the given
offset — here a stone barrier followed by a platform (Scenario C
boxes, top y 400). -/
def stone_and_platform (offset_x : Int) : List Obstacle :=
  [Obstacle.barrier ⟨stoneImage (offset_x + 150) 546⟩,
   Obstacle.platform (Platform.new ⟨offset_x + 400, 400⟩ platformRelativeBoxes)]

/-- Modelled from the spec: `segments::platform_and_stone` is not
under `src/`; the mirror template — a platform followed by a stone
barrier. -/
def platform_and_stone (offset_x : Int) : List Obstacle :=
  [Obstacle.platform (Platform.new ⟨offset_x + 50, 400⟩ platformRelativeBoxes),
   Obstacle.barrier ⟨stoneImage (offset_x + 550) 546⟩]

/-! The world aggregate and the outer lifecycle machine. -/

def TIMELINE_MINIMUM : Int := 1000
def OBSTACLE_BUFFER : Int := 20

/-- `game::Walk` — player, the two scrolling backgrounds, obstacle
list and lookahead cursor (`timeline`); the stone image and shared
obstacle sheet handles feed only the segment constructors and are
omitted with them. -/
structure Walk where
  boy : RedHatBoy
  background1 : Image
  background2 : Image
  obstacles : List Obstacle
  timeline : Int
deriving DecidableEq

namespace Walk

def knocked_out (w : Walk) : Bool := w.boy.knocked_out

/-- `Walk::velocity` — the scroll speed: negated walking speed. -/
def velocity (w : Walk) : Int := -w.boy.walking_speed

/-- The input-processing prefix of `WalkTheDogState<Walking>::update`:
jump on Space, slide on ArrowDown, then the unconditional tick. -/
def inputBoy (w : Walk) (ks : KeyState) : RedHatBoy :=
  let boy0 := if ks.space then w.boy.jump else w.boy
  let boy1 := if ks.arrowDown then boy0.slide else boy0
  boy1.update

/-- The obstacles `generate_next_segment` builds for a given random
draw (`thread_rng().gen_range(0..2)` passed in as `rng`). -/
def nextObstacles (w : Walk) (rng : Nat) : List Obstacle :=
  match rng with
  | 0 => stone_and_platform (w.timeline + OBSTACLE_BUFFER)
  | 1 => platform_and_stone (w.timeline + OBSTACLE_BUFFER)
  | _ => []

/-- `Walk::generate_next_segment` — append a random segment and move
the lookahead cursor to the rightmost edge of the NEW obstacles. -/
def generate_next_segment (w : Walk) (rng : Nat) : Walk :=
  let next := w.nextObstacles rng
  { w with timeline := rightmost next, obstacles := w.obstacles ++ next }

/-- `Walk::reset` — fresh starting obstacles from
`stone_and_platform(…, 0)`, cursor at their rightmost edge, the boy
rebuilt from scratch, backgrounds kept. -/
def reset (w : Walk) : Walk :=
  let starting_obstacles := stone_and_platform 0
  { boy := w.boy.reset,
    background1 := w.background1,
    background2 := w.background2,
    obstacles := starting_obstacles,
    timeline := rightmost starting_obstacles }

end Walk

/-- The in-place loop of `WalkTheDogState<Walking>::update`: each
obstacle is shifted left and then collision-checked against the boy,
in list order, threading the boy through. -/
def moveAndCheck : List Obstacle → RedHatBoy → Int → List Obstacle × RedHatBoy
  | [], boy, _ => ([], boy)
  | o :: rest, boy, ws =>
    let o' := o.move_horizontally ws
    let boy' := o'.check_intersection boy
    let (os, b) := moveAndCheck rest boy' ws
    (o' :: os, b)

/-- `game::WalkTheDogStateMachine` — the outer lifecycle variant. -/
inductive WalkTheDogStateMachine where
  | ready (walk : Walk)
  | walking (walk : Walk)
  | gameOver (walk : Walk)
deriving DecidableEq

namespace WalkTheDogStateMachine

/-- The `Walk` carried by any outer state. -/
def walk : WalkTheDogStateMachine → Walk
  | ready w | walking w | gameOver w => w

/-- `WalkTheDogState<Ready>::start_running` — inject `Run`, enter
Walking. -/
def startRunning (w : Walk) : WalkTheDogStateMachine :=
  walking { w with boy := w.boy.run_right }

/-- `WalkTheDogState<Ready>::update` — tick the boy's idle animation;
on ArrowRight start running. -/
def readyUpdate (w : Walk) (ks : KeyState) : WalkTheDogStateMachine :=
  let w' := { w with boy := w.boy.update }
  if ks.arrowRight then startRunning w' else ready w'

/-- `WalkTheDogState<Walking>::update` — the full Walking tick:
input-driven jump/slide, boy tick, background scroll and wrap,
pruning, obstacle shift + collision checks, segment
generation/lookahead decrement, knock-out check.  `rng` stands for the
tick's random segment draw. -/
def walkingUpdate (w : Walk) (ks : KeyState) (rng : Nat) : WalkTheDogStateMachine :=
  let boy2 := w.inputBoy ks
  let walking_speed := -boy2.walking_speed
  let bg1 := w.background1.move_horizontally walking_speed
  let bg2 := w.background2.move_horizontally walking_speed
  let bg1' := if bg1.right < 0 then bg1.set_x bg2.right else bg1
  let bg2' := if bg2.right < 0 then bg2.set_x bg1'.right else bg2
  let retained := w.obstacles.filter (fun o => o.right > 0)
  let (obstacles', boy3) := moveAndCheck retained boy2 walking_speed
  let w' : Walk :=
    { boy := boy3, background1 := bg1', background2 := bg2',
      obstacles := obstacles', timeline := w.timeline }
  let w'' :=
    if w'.timeline < TIMELINE_MINIMUM then
      w'.generate_next_segment rng
    else
      { w' with timeline := w'.timeline + walking_speed }
  if w''.knocked_out then gameOver w'' else walking w''

/-- `WalkTheDogState<GameOver>::update` — the result of the
non-blocking `new_game_pressed` poll is passed in; on a restart
request rebuild the walk and return to Ready. -/
def gameOverUpdate (w : Walk) (newGamePressed : Bool) : WalkTheDogStateMachine :=
  if newGamePressed then ready w.reset else gameOver w

/-- `WalkTheDogStateMachine::update` — one outer tick. -/
def update (m : WalkTheDogStateMachine) (ks : KeyState) (rng : Nat)
    (newGamePressed : Bool) : WalkTheDogStateMachine :=
  match m with
  | ready w => readyUpdate w ks
  | walking w => walkingUpdate w ks rng
  | gameOver w => gameOverUpdate w newGamePressed

end WalkTheDogStateMachine

/-- `game::WalkTheDog` — the outer machine, `none` before a
successful initialization. -/
structure WalkTheDog where
  machine : Option WalkTheDogStateMachine
deriving DecidableEq

namespace WalkTheDog

/-- `WalkTheDog::new`. -/
def new : WalkTheDog := { machine := none }

/-- `<WalkTheDog as Game>::initialize` — the asset-loading branch is
summarized by `loaded`, the fully built starting `Walk` its body
constructs; on an already-initialized instance it returns the explicit
error without touching the machine (`initialize` takes `&self`). -/
def initGame (g : WalkTheDog) (loaded : Walk) : Except String WalkTheDog :=
  match g.machine with
  | none => .ok { machine := some (.ready loaded) }
  | some _ => .error "Error: Game is already initialized!"

/-- `<WalkTheDog as Game>::update` — `take` the machine, tick it, put
it back; `none` models the `assert!(self.machine.is_some())` panic
when the machine was absent. -/
def update (g : WalkTheDog) (ks : KeyState) (rng : Nat)
    (newGamePressed : Bool) : Option WalkTheDog :=
  match g.machine with
  | some m => some { machine := some (m.update ks rng newGamePressed) }
  | none => none

end WalkTheDog

/-! Shape predicates on the player machine, used to state reachability
of a given variant. -/

namespace RedHatBoyStateMachine

def isRunning : RedHatBoyStateMachine → Bool
  | running _ => true
  | _ => false

def isSliding : RedHatBoyStateMachine → Bool
  | sliding _ => true
  | _ => false

def isJumping : RedHatBoyStateMachine → Bool
  | jumping _ => true
  | _ => false

def isFalling : RedHatBoyStateMachine → Bool
  | falling _ => true
  | _ => false

def isKnockedOut : RedHatBoyStateMachine → Bool
  | knockedOut _ => true
  | _ => false

end RedHatBoyStateMachine

open RedHatBoyStateMachine

/-! Concrete scenario data used to evaluate the collision and pruning
claims on explicit inputs: a 160×136 sprite cell at source offset
(0,0), minimal sheets holding the one frame each scenario displays,
and specific players, platforms and walks. -/

/-- A representative sprite cell (160×136 frame, zero source offset). -/
def sampleCell : Cell := { frame := ⟨0, 0, 160, 136⟩, sprite_source_size := ⟨0, 0⟩ }

/-- A sheet holding the `Dead` frame a Falling player displays. -/
def fallingSheet : Sheet := [("Dead (1).png", sampleCell)]

/-- A sheet holding the `Run` frames a Running player displays early on. -/
def runSheet : Sheet := [("Run (1).png", sampleCell)]

/-- A Falling player at (200, 300) moving down (`velocity.y = 1`). -/
def c5Boy : RedHatBoy :=
  { state_machine := .falling { frame := 0, position := ⟨200, 300⟩, velocity := ⟨0, 1⟩ },
    sprite_sheet := fallingSheet }

/-- A Running player at (200, 300) moving down (`velocity.y = 1`). -/
def c5RunBoy : RedHatBoy :=
  { state_machine := .running { frame := 0, position := ⟨200, 300⟩, velocity := ⟨3, 1⟩ },
    sprite_sheet := runSheet }

/-- The Scenario C platform at position (150, 400). -/
def c5Platform : Platform := Platform.new ⟨150, 400⟩ platformRelativeBoxes

/-- A Running player on the floor, walking right at speed 3. -/
def c1Boy : RedHatBoy :=
  { state_machine := .running { frame := 0, position := ⟨200, 479⟩, velocity := ⟨3, 0⟩ },
    sprite_sheet := runSheet }

/-- A barrier whose right edge is at 2, about to scroll past the left
screen edge. -/
def c1Barrier : Obstacle :=
  .barrier { image := { position := ⟨-53, 500⟩, width := 55, height := 54 } }

/-- A Walking-state world holding just `c1Barrier`, lookahead cursor
far above the generation threshold. -/
def c1Walk : Walk :=
  { boy := c1Boy, background1 := ⟨⟨0, 0⟩, 600, 600⟩,
    background2 := ⟨⟨600, 0⟩, 600, 600⟩, obstacles := [c1Barrier], timeline := 2000 }

/-- No key pressed. -/
def ksNone : KeyState := ⟨false, false, false⟩

/-! ### Helper lemmas -/

lemma transition_knockedOut (c : RedHatBoyContext) (e : Event) :
    transition (.knockedOut c) e = .knockedOut c := by
  cases e <;> rfl

lemma run_events_cons (m : RedHatBoyStateMachine) (e : Event) (es : List Event) :
    run_events m (e :: es) = run_events (m.transition e) es := rfl

lemma updateIter_succ_back (n : Nat) (m : RedHatBoyStateMachine) :
    updateIter (n + 1) m = (updateIter n m).update := by
  induction n generalizing m with
  | zero => rfl
  | succ k ih =>
    show updateIter (k + 1) m.update = (updateIter (k + 1) m).update
    rw [ih, updateIter]

/-! ### C2 — KnockedOut is absorbing -/

/-- Claim C2: once the player machine is `KnockedOut`, applying any
sequence of events (`Run`, `Slide`, `Jump`, `KnockOut`, `Land`,
`Update`, in any order and length) through
`RedHatBoyStateMachine::transition` leaves it `KnockedOut` with the
very same context (position, velocity and frame unchanged), since the
resulting machine is equal to the starting one. -/
theorem C2_knockedOut_absorbing (c : RedHatBoyContext) (es : List Event) :
    run_events (.knockedOut c) es = .knockedOut c := by
  induction es with
  | nil => rfl
  | cons e es ih => rw [run_events_cons, transition_knockedOut, ih]

/-! ### C3 — gravity capped at terminal velocity -/

/-- Claim C3: for every context with `velocity.y ≤ TERMINAL_VELOCITY`,
the per-tick physics `RedHatBoyContext::update` (with any frame
budget) keeps `velocity.y ≤ TERMINAL_VELOCITY`, and when `velocity.y`
was strictly below the cap the tick increases it by exactly `GRAVITY`
(hence strictly). -/
theorem C3_gravity_terminal_velocity (c : RedHatBoyContext) (frame_count : Nat)
    (h : c.velocity.y ≤ TERMINAL_VELOCITY) :
    (c.update frame_count).velocity.y ≤ TERMINAL_VELOCITY ∧
      (c.velocity.y < TERMINAL_VELOCITY →
        (c.update frame_count).velocity.y = c.velocity.y + GRAVITY ∧
          c.velocity.y < (c.update frame_count).velocity.y) := by
  unfold RedHatBoyContext.update
  dsimp only
  split
  · next hlt =>
    refine ⟨?_, fun _ => ⟨rfl, ?_⟩⟩
    · show c.velocity.y + GRAVITY ≤ TERMINAL_VELOCITY
      unfold GRAVITY TERMINAL_VELOCITY at *
      omega
    · show c.velocity.y < c.velocity.y + GRAVITY
      unfold GRAVITY
      omega
  · next hge => exact ⟨h, fun hlt => absurd hlt hge⟩

/-- Witness for C3 at the fresh idle context (velocity.y = 0, frame
budget 29). -/
theorem C3_witness :
    RedHatBoyContext.initial.velocity.y ≤ TERMINAL_VELOCITY ∧
      ((RedHatBoyContext.initial.update IDLE_FRAMES).velocity.y ≤ TERMINAL_VELOCITY ∧
        (RedHatBoyContext.initial.velocity.y < TERMINAL_VELOCITY →
          (RedHatBoyContext.initial.update IDLE_FRAMES).velocity.y =
              RedHatBoyContext.initial.velocity.y + GRAVITY ∧
            RedHatBoyContext.initial.velocity.y <
              (RedHatBoyContext.initial.update IDLE_FRAMES).velocity.y)) :=
  ⟨by decide, C3_gravity_terminal_velocity RedHatBoyContext.initial IDLE_FRAMES (by decide)⟩

/-! ### C9 — double initialization is rejected -/

/-- Claim C9: calling `initialize` on a `WalkTheDog` whose machine is
already `Some` returns the explicit "already initialized" error
instead of succeeding or reinitializing; the call takes the instance
by shared reference, so the existing machine is untouched (the
function returns only the error, never a modified instance). -/
theorem C9_double_initialization_rejected (g : WalkTheDog) (loaded : Walk)
    (m : WalkTheDogStateMachine) (h : g.machine = some m) :
    g.initGame loaded = .error "Error: Game is already initialized!" := by
  cases g with
  | mk machine =>
    cases machine with
    | none => cases h
    | some m' => rfl

/-- Witness for C9: a concrete initialized instance (Ready over an
empty walk) is rejected. -/
theorem C9_witness :
    WalkTheDog.initGame
        { machine := some (.ready
            { boy := RedHatBoy.new [], background1 := ⟨⟨0, 0⟩, 600, 600⟩,
              background2 := ⟨⟨600, 0⟩, 600, 600⟩, obstacles := [], timeline := 0 }) }
        (Walk.mk (RedHatBoy.new []) ⟨⟨0, 0⟩, 600, 600⟩ ⟨⟨600, 0⟩, 600, 600⟩ [] 0) =
      .error "Error: Game is already initialized!" :=
  C9_double_initialization_rejected _ _ _ rfl

/-! ### C10 — the outer machine never disappears across a tick -/

/-- Claim C10: for every key state (and random draw / restart poll),
`WalkTheDog::update` on an instance whose machine is `Some` leaves it
`Some` (carrying the ticked machine), while on an instance whose
machine is `None` the trailing `assert!(self.machine.is_some())`
fails — modelled as the `none` (panic) result — rather than being a
silent no-op. -/
theorem C10_update_machine_preserved (m : WalkTheDogStateMachine) (ks : KeyState)
    (rng : Nat) (p : Bool) :
    WalkTheDog.update { machine := some m } ks rng p =
        some { machine := some (m.update ks rng p) } ∧
      WalkTheDog.update { machine := none } ks rng p = none :=
  ⟨rfl, rfl⟩

/-! ### C4 — frame-budget transitions of Sliding and Falling -/

lemma context_update_frame (c : RedHatBoyContext) (fc : Nat) :
    (c.update fc).frame = if c.frame < fc then c.frame + 1 else 0 := rfl

lemma sliding_iter (c : RedHatBoyContext) (h0 : c.frame = 0) :
    ∀ k, k < SLIDING_FRAMES →
      ∃ c', updateIter k (.sliding c) = .sliding c' ∧ c'.frame = k := by
  intro k
  induction k with
  | zero => exact fun _ => ⟨c, rfl, h0⟩
  | succ k ih =>
    intro hk1
    obtain ⟨c', hit, hf⟩ := ih (Nat.lt_of_succ_lt hk1)
    have hlt : c'.frame < SLIDING_FRAMES := by
      rw [hf]
      exact Nat.lt_of_succ_lt hk1
    have hframe : (c'.update SLIDING_FRAMES).frame = k + 1 := by
      rw [context_update_frame, if_pos hlt, hf]
    have hstay : ¬ (c'.update SLIDING_FRAMES).frame ≥ SLIDING_FRAMES := by
      rw [hframe]
      omega
    refine ⟨c'.update SLIDING_FRAMES, ?_, hframe⟩
    rw [updateIter_succ_back, hit]
    show slidingUpdate c' = _
    simp only [slidingUpdate]
    rw [if_neg hstay]

lemma falling_iter (c : RedHatBoyContext) (h0 : c.frame = 0) :
    ∀ k, k < FALLING_FRAMES →
      ∃ c', updateIter k (.falling c) = .falling c' ∧ c'.frame = k := by
  intro k
  induction k with
  | zero => exact fun _ => ⟨c, rfl, h0⟩
  | succ k ih =>
    intro hk1
    obtain ⟨c', hit, hf⟩ := ih (Nat.lt_of_succ_lt hk1)
    have hlt : c'.frame < FALLING_FRAMES := by
      rw [hf]
      exact Nat.lt_of_succ_lt hk1
    have hframe : (c'.update FALLING_FRAMES).frame = k + 1 := by
      rw [context_update_frame, if_pos hlt, hf]
    have hstay : ¬ (c'.update FALLING_FRAMES).frame ≥ FALLING_FRAMES := by
      rw [hframe]
      omega
    refine ⟨c'.update FALLING_FRAMES, ?_, hframe⟩
    rw [updateIter_succ_back, hit]
    show fallingUpdate c' = _
    simp only [fallingUpdate]
    rw [if_neg hstay]

/-- Claim C4: entering Sliding via `Slide` (frame reset to 0), any
`k < SLIDING_FRAMES` consecutive Updates leave the machine Sliding and
exactly `SLIDING_FRAMES` Updates yield Running; entering Falling via
`KnockOut` (frame reset to 0, from Running — Jumping and Sliding give
the identical entry state, as the first conjunct records), any
`j < FALLING_FRAMES` Updates leave it Falling and exactly
`FALLING_FRAMES` Updates yield KnockedOut. -/
theorem C4_frame_budget_transitions (c d : RedHatBoyContext) (k j : Nat)
    (hk : k < SLIDING_FRAMES) (hj : j < FALLING_FRAMES) :
    ((RedHatBoyStateMachine.jumping d).transition .knockOut =
        (RedHatBoyStateMachine.running d).transition .knockOut ∧
      (RedHatBoyStateMachine.sliding d).transition .knockOut =
        (RedHatBoyStateMachine.running d).transition .knockOut) ∧
    isSliding (updateIter k ((RedHatBoyStateMachine.running c).transition .slide)) = true ∧
    isRunning (updateIter SLIDING_FRAMES
      ((RedHatBoyStateMachine.running c).transition .slide)) = true ∧
    isFalling (updateIter j ((RedHatBoyStateMachine.running d).transition .knockOut)) = true ∧
    isKnockedOut (updateIter FALLING_FRAMES
      ((RedHatBoyStateMachine.running d).transition .knockOut)) = true := by
  have hslide : (RedHatBoyStateMachine.running c).transition .slide =
      .sliding (running_slide c) := rfl
  have hknock : (RedHatBoyStateMachine.running d).transition .knockOut =
      .falling (knock_out_ctx d) := rfl
  refine ⟨⟨rfl, rfl⟩, ?_, ?_, ?_, ?_⟩
  · obtain ⟨c', hit, _⟩ := sliding_iter (running_slide c) rfl k hk
    rw [hslide, hit]
    rfl
  · obtain ⟨c', hit, hf⟩ :=
      sliding_iter (running_slide c) rfl (SLIDING_FRAMES - 1) (by decide)
    have hlt : c'.frame < SLIDING_FRAMES := by
      rw [hf]
      decide
    have hframe : (c'.update SLIDING_FRAMES).frame = SLIDING_FRAMES := by
      rw [context_update_frame, if_pos hlt, hf]
      decide
    have hdone : (c'.update SLIDING_FRAMES).frame ≥ SLIDING_FRAMES := by
      rw [hframe]
    rw [hslide, show SLIDING_FRAMES = (SLIDING_FRAMES - 1) + 1 from by decide,
      updateIter_succ_back, hit]
    show isRunning (slidingUpdate c') = true
    simp only [slidingUpdate]
    rw [if_pos hdone]
    rfl
  · obtain ⟨d', hit, _⟩ := falling_iter (knock_out_ctx d) rfl j hj
    rw [hknock, hit]
    rfl
  · obtain ⟨d', hit, hf⟩ :=
      falling_iter (knock_out_ctx d) rfl (FALLING_FRAMES - 1) (by decide)
    have hlt : d'.frame < FALLING_FRAMES := by
      rw [hf]
      decide
    have hframe : (d'.update FALLING_FRAMES).frame = FALLING_FRAMES := by
      rw [context_update_frame, if_pos hlt, hf]
      decide
    have hdone : (d'.update FALLING_FRAMES).frame ≥ FALLING_FRAMES := by
      rw [hframe]
    rw [hknock, show FALLING_FRAMES = (FALLING_FRAMES - 1) + 1 from by decide,
      updateIter_succ_back, hit]
    show isKnockedOut (fallingUpdate d') = true
    simp only [fallingUpdate]
    rw [if_pos hdone]
    rfl

/-! ### C7 — the lookahead cursor after segment generation -/

lemma rightmost_pair (a b : Obstacle) :
    rightmost [a, b] = max a.right b.right := by
  simp [rightmost, List.max?]

/-- Claim C7: immediately after `Walk::generate_next_segment` (with a
random draw `rng < 2` as `gen_range(0..2)` produces), the new
obstacles are appended to the list, and `walk.timeline` equals the
maximum right edge among exactly those newly added obstacles: it
bounds each of them and is attained by one of them. -/
theorem C7_lookahead_after_generation (w : Walk) (rng : Nat) (h : rng < 2) :
    (w.generate_next_segment rng).obstacles = w.obstacles ++ w.nextObstacles rng ∧
      (w.generate_next_segment rng).timeline = rightmost (w.nextObstacles rng) ∧
      w.nextObstacles rng ≠ [] ∧
      (∀ o ∈ w.nextObstacles rng, o.right ≤ (w.generate_next_segment rng).timeline) ∧
      (∃ o ∈ w.nextObstacles rng, o.right = (w.generate_next_segment rng).timeline) := by
  have h2 : rng = 0 ∨ rng = 1 := by omega
  refine ⟨rfl, rfl, ?_, ?_, ?_⟩ <;> rcases h2 with h2 | h2 <;> subst h2 <;>
    simp [Walk.nextObstacles, stone_and_platform, platform_and_stone,
      Walk.generate_next_segment, rightmost_pair, Obstacle.right, Barrier.right,
      Platform.right, Image.right, Image.bounding_box, Rect.right, Rect.x,
      Platform.new, platformRelativeBoxes, Rect.new_from_x_y, stoneImage] <;>
    omega

/-- Witness for C7 on a minimal walk with `rng = 0`. -/
theorem C7_witness :
    (0 : Nat) < 2 ∧
      (((Walk.mk (RedHatBoy.new []) ⟨⟨0, 0⟩, 600, 600⟩ ⟨⟨600, 0⟩, 600, 600⟩ [] 0).generate_next_segment 0).obstacles =
          (Walk.mk (RedHatBoy.new []) ⟨⟨0, 0⟩, 600, 600⟩ ⟨⟨600, 0⟩, 600, 600⟩ [] 0).obstacles ++
            (Walk.mk (RedHatBoy.new []) ⟨⟨0, 0⟩, 600, 600⟩ ⟨⟨600, 0⟩, 600, 600⟩ [] 0).nextObstacles 0 ∧
        ((Walk.mk (RedHatBoy.new []) ⟨⟨0, 0⟩, 600, 600⟩ ⟨⟨600, 0⟩, 600, 600⟩ [] 0).generate_next_segment 0).timeline =
          rightmost ((Walk.mk (RedHatBoy.new []) ⟨⟨0, 0⟩, 600, 600⟩ ⟨⟨600, 0⟩, 600, 600⟩ [] 0).nextObstacles 0) ∧
        (Walk.mk (RedHatBoy.new []) ⟨⟨0, 0⟩, 600, 600⟩ ⟨⟨600, 0⟩, 600, 600⟩ [] 0).nextObstacles 0 ≠ [] ∧
        (∀ o ∈ (Walk.mk (RedHatBoy.new []) ⟨⟨0, 0⟩, 600, 600⟩ ⟨⟨600, 0⟩, 600, 600⟩ [] 0).nextObstacles 0,
          o.right ≤ ((Walk.mk (RedHatBoy.new []) ⟨⟨0, 0⟩, 600, 600⟩ ⟨⟨600, 0⟩, 600, 600⟩ [] 0).generate_next_segment 0).timeline) ∧
        (∃ o ∈ (Walk.mk (RedHatBoy.new []) ⟨⟨0, 0⟩, 600, 600⟩ ⟨⟨600, 0⟩, 600, 600⟩ [] 0).nextObstacles 0,
          o.right = ((Walk.mk (RedHatBoy.new []) ⟨⟨0, 0⟩, 600, 600⟩ ⟨⟨600, 0⟩, 600, 600⟩ [] 0).generate_next_segment 0).timeline)) :=
  ⟨by decide,
    C7_lookahead_after_generation
      (Walk.mk (RedHatBoy.new []) ⟨⟨0, 0⟩, 600, 600⟩ ⟨⟨600, 0⟩, 600, 600⟩ [] 0) 0 (by decide)⟩

/-! ### C8 — GameOver with a restart signal rebuilds the walk -/

/-- Claim C8: a GameOver tick whose restart poll succeeded transitions
to Ready carrying `Walk::reset` of the previous walk: a freshly
generated, non-empty starting obstacle set (`stone_and_platform` at
offset 0, with the lookahead cursor at its rightmost edge), the player
rebuilt as Idle at the configured starting position
`(STARTING_POINT, FLOOR)` with zero velocity and frame 0, and both
backgrounds carried over unchanged. -/
theorem C8_game_over_restart (w : Walk) (ks : KeyState) (rng : Nat) :
    (WalkTheDogStateMachine.gameOver w).update ks rng true = .ready w.reset ∧
      w.reset.obstacles = stone_and_platform 0 ∧
      w.reset.obstacles ≠ [] ∧
      w.reset.timeline = rightmost (stone_and_platform 0) ∧
      w.reset.boy.state_machine = .idle RedHatBoyContext.initial ∧
      RedHatBoyContext.initial =
        { frame := 0, position := ⟨STARTING_POINT, FLOOR⟩, velocity := ⟨0, 0⟩ } ∧
      w.reset.background1 = w.background1 ∧
      w.reset.background2 = w.background2 := by
  refine ⟨rfl, rfl, ?_, rfl, rfl, rfl, rfl, rfl⟩
  simp [Walk.reset, stone_and_platform]

/-- Witness for C4 at the fresh idle context with `k = j = 0`. -/
theorem C4_witness :
    (0 < SLIDING_FRAMES ∧ 0 < FALLING_FRAMES) ∧
      (((RedHatBoyStateMachine.jumping RedHatBoyContext.initial).transition .knockOut =
          (RedHatBoyStateMachine.running RedHatBoyContext.initial).transition .knockOut ∧
        (RedHatBoyStateMachine.sliding RedHatBoyContext.initial).transition .knockOut =
          (RedHatBoyStateMachine.running RedHatBoyContext.initial).transition .knockOut) ∧
      isSliding (updateIter 0
        ((RedHatBoyStateMachine.running RedHatBoyContext.initial).transition .slide)) = true ∧
      isRunning (updateIter SLIDING_FRAMES
        ((RedHatBoyStateMachine.running RedHatBoyContext.initial).transition .slide)) = true ∧
      isFalling (updateIter 0
        ((RedHatBoyStateMachine.running RedHatBoyContext.initial).transition .knockOut)) = true ∧
      isKnockedOut (updateIter FALLING_FRAMES
        ((RedHatBoyStateMachine.running RedHatBoyContext.initial).transition .knockOut)) = true) :=
  ⟨⟨by decide, by decide⟩,
    C4_frame_budget_transitions RedHatBoyContext.initial RedHatBoyContext.initial 0 0
      (by decide) (by decide)⟩

/-! ### C5 — platform intersection: land from above, knock out otherwise -/

/-- Claim C5 is FALSE as stated: a Falling player that meets the
landing conditions (downward velocity, above the platform top) does
receive `Land(box.y)`, but the `Land` event is a no-op in the Falling
state, so the player does NOT end with
`position.y = box.y - PLAYER_HEIGHT` — here it stays at 300 instead of
279. -/
theorem C5_counterexample :
    c5Boy.bounding_box = some (Rect.new_from_x_y 218 314 132 122) ∧
      c5Platform.bounding_boxes.find?
          (fun b => (Rect.new_from_x_y 218 314 132 122).intersects b) =
        some (Rect.new_from_x_y 210 400 264 54) ∧
      c5Boy.velocity_y > 0 ∧
      c5Boy.pos_y < c5Platform.position.y ∧
      (c5Platform.check_intersection c5Boy).pos_y ≠
        (Rect.new_from_x_y 210 400 264 54).y - PLAYER_HEIGHT :=
  ⟨rfl, rfl, by decide, by decide, by decide⟩

/-- Claim C5 (amended): on the first platform box intersecting the
player's bounding box, if `velocity.y > 0` and the player's y is above
the platform's y the player receives `Land` with that box's top y —
and, PROVIDED the player is in a state that accepts `Land` (Running,
Jumping or Sliding; in Idle, Falling or KnockedOut the event is a
no-op), ends with `position.y = box.y - PLAYER_HEIGHT` exactly; in
every other intersecting case the player receives `KnockOut`. -/
theorem C5_platform_intersection (p : Platform) (boy : RedHatBoy) (bb box : Rect)
    (hbb : boy.bounding_box = some bb)
    (hfind : p.bounding_boxes.find? (fun b => bb.intersects b) = some box) :
    ((boy.velocity_y > 0 ∧ boy.pos_y < p.position.y) →
        p.check_intersection boy = boy.land_on box.y ∧
          ((isRunning boy.state_machine || isJumping boy.state_machine ||
              isSliding boy.state_machine) = true →
            (p.check_intersection boy).pos_y = box.y - PLAYER_HEIGHT)) ∧
      (¬(boy.velocity_y > 0 ∧ boy.pos_y < p.position.y) →
        p.check_intersection boy = boy.knock_out) := by
  have hcheck : p.check_intersection boy =
      if boy.velocity_y > 0 ∧ boy.pos_y < p.position.y then
        boy.land_on box.y
      else
        boy.knock_out := by
    simp only [Platform.check_intersection, hbb, hfind]
  constructor
  · intro hcond
    rw [hcheck, if_pos hcond]
    refine ⟨rfl, ?_⟩
    intro hshape
    obtain ⟨sm, sheet⟩ := boy
    cases sm with
    | running c => rfl
    | jumping c => rfl
    | sliding c => rfl
    | idle c => simp [isRunning, isJumping, isSliding] at hshape
    | falling c => simp [isRunning, isJumping, isSliding] at hshape
    | knockedOut c => simp [isRunning, isJumping, isSliding] at hshape
  · intro hcond
    rw [hcheck, if_neg hcond]

/-- Witness for C5 on the Running player above the Scenario C
platform: it lands exactly on `400 - PLAYER_HEIGHT = 279`. -/
theorem C5_witness :
    (c5RunBoy.bounding_box = some (Rect.new_from_x_y 218 314 132 122) ∧
      c5Platform.bounding_boxes.find?
          (fun b => (Rect.new_from_x_y 218 314 132 122).intersects b) =
        some (Rect.new_from_x_y 210 400 264 54)) ∧
      (((c5RunBoy.velocity_y > 0 ∧ c5RunBoy.pos_y < c5Platform.position.y) →
          c5Platform.check_intersection c5RunBoy =
              c5RunBoy.land_on (Rect.new_from_x_y 210 400 264 54).y ∧
            ((isRunning c5RunBoy.state_machine || isJumping c5RunBoy.state_machine ||
                isSliding c5RunBoy.state_machine) = true →
              (c5Platform.check_intersection c5RunBoy).pos_y =
                (Rect.new_from_x_y 210 400 264 54).y - PLAYER_HEIGHT)) ∧
        (¬(c5RunBoy.velocity_y > 0 ∧ c5RunBoy.pos_y < c5Platform.position.y) →
          c5Platform.check_intersection c5RunBoy = c5RunBoy.knock_out)) :=
  ⟨⟨rfl, rfl⟩, C5_platform_intersection c5Platform c5RunBoy _ _ rfl rfl⟩

/-! ### C1 — obstacle pruning during the Walking tick -/

lemma moveAndCheck_fst (l : List Obstacle) (b : RedHatBoy) (ws : Int) :
    (moveAndCheck l b ws).1 = l.map (fun o => o.move_horizontally ws) := by
  induction l generalizing b with
  | nil => rfl
  | cons o rest ih =>
    simp only [moveAndCheck, List.map_cons]
    rw [ih]

lemma walk_of_ite (c : Prop) [Decidable c] (x : Walk) :
    ((if c then WalkTheDogStateMachine.gameOver x
      else WalkTheDogStateMachine.walking x)).walk = x := by
  split <;> rfl

/-- Claim C1 is FALSE as stated: in `c1Walk` the barrier's right edge
is 2 > 0 at the start of the tick, so the `retain` keeps it; the
subsequent scroll shift by -3 leaves it in the list with right edge
-1 ≤ 0 after the tick completes. -/
theorem C1_counterexample :
    ∃ o ∈ ((WalkTheDogStateMachine.walkingUpdate c1Walk ksNone 0).walk).obstacles,
      o.right ≤ 0 := by decide

/-- Claim C1 (amended): the Walking tick prunes by right edge ≤ 0
measured BEFORE the scroll shift: the post-tick obstacle list is
exactly the pre-tick obstacles whose right edge was > 0, each shifted
by the (negative) scroll speed — so a survivor's right edge may end
≤ 0, only greater than the scroll delta — followed by the obstacles of
the segment generated this tick, if the lookahead cursor was below the
threshold. -/
theorem C1_pruning_before_shift (w : Walk) (ks : KeyState) (rng : Nat) (h : rng < 2) :
    ((WalkTheDogStateMachine.walkingUpdate w ks rng).walk).obstacles =
      (w.obstacles.filter (fun o => o.right > 0)).map
          (fun o => o.move_horizontally (-(w.inputBoy ks).walking_speed)) ++
        (if w.timeline < TIMELINE_MINIMUM then
          (if rng = 0 then stone_and_platform (w.timeline + OBSTACLE_BUFFER)
           else platform_and_stone (w.timeline + OBSTACLE_BUFFER))
         else []) := by
  have h2 : rng = 0 ∨ rng = 1 := by omega
  simp only [WalkTheDogStateMachine.walkingUpdate, walk_of_ite]
  split
  · simp only [Walk.generate_next_segment, Walk.nextObstacles, moveAndCheck_fst]
    rcases h2 with h2 | h2 <;> subst h2 <;> rfl
  · simp only [moveAndCheck_fst]
    exact (List.append_nil _).symm

/-- Witness for C1 (amended) on the concrete `c1Walk` tick. -/
theorem C1_witness :
    (0 : Nat) < 2 ∧
      ((WalkTheDogStateMachine.walkingUpdate c1Walk ksNone 0).walk).obstacles =
        (c1Walk.obstacles.filter (fun o => o.right > 0)).map
            (fun o => o.move_horizontally (-(c1Walk.inputBoy ksNone).walking_speed)) ++
          (if c1Walk.timeline < TIMELINE_MINIMUM then
            (if 0 = 0 then stone_and_platform (c1Walk.timeline + OBSTACLE_BUFFER)
             else platform_and_stone (c1Walk.timeline + OBSTACLE_BUFFER))
           else []) :=
  ⟨by decide, C1_pruning_before_shift c1Walk ksNone 0 (by decide)⟩

/-! ### C6 — jumping from Running lands back on the floor -/

lemma update_velocity_y_def (c : RedHatBoyContext) (fc : Nat) :
    (c.update fc).velocity.y =
      if c.velocity.y < TERMINAL_VELOCITY then c.velocity.y + GRAVITY
      else c.velocity.y := by
  unfold RedHatBoyContext.update
  by_cases hv : c.velocity.y < TERMINAL_VELOCITY <;> simp [hv]

lemma update_position_y_def (c : RedHatBoyContext) (fc : Nat) :
    (c.update fc).position.y =
      if c.position.y + (c.update fc).velocity.y > FLOOR then FLOOR
      else c.position.y + (c.update fc).velocity.y := by
  conv_lhs => unfold RedHatBoyContext.update
  rw [update_velocity_y_def]
  by_cases hv : c.velocity.y < TERMINAL_VELOCITY <;> simp [hv]

lemma jumping_update_shape (c : RedHatBoyContext) :
    (FLOOR ≤ (c.update JUMPING_FRAMES).position.y ∧
      (RedHatBoyStateMachine.jumping c).update =
        .running (jumping_land_on (c.update JUMPING_FRAMES) HEIGHT)) ∨
    ((c.update JUMPING_FRAMES).position.y < FLOOR ∧
      (RedHatBoyStateMachine.jumping c).update = .jumping (c.update JUMPING_FRAMES)) := by
  by_cases hp : (c.update JUMPING_FRAMES).position.y ≥ FLOOR
  · refine Or.inl ⟨hp, ?_⟩
    show jumpingUpdate c = _
    simp only [jumpingUpdate]
    rw [if_pos hp]
  · refine Or.inr ⟨lt_of_not_ge hp, ?_⟩
    show jumpingUpdate c = _
    simp only [jumpingUpdate]
    rw [if_neg hp]

lemma land_on_height_floor (c : RedHatBoyContext) :
    (jumping_land_on c HEIGHT).position.y = FLOOR := by
  simp [jumping_land_on, RedHatBoyContext.set_on, RedHatBoyContext.reset_frame]
  decide

/-- Termination measure for an airborne player: distance above the
floor plus (weighted) distance of `velocity.y` below the terminal
velocity; it strictly decreases on every tick that stays Jumping. -/
def measJump (c : RedHatBoyContext) : Nat :=
  (FLOOR - c.position.y).toNat + 27 * (TERMINAL_VELOCITY - c.velocity.y).toNat

lemma jumping_lands (fuel : Nat) :
    ∀ c : RedHatBoyContext, -27 ≤ c.velocity.y → c.velocity.y ≤ TERMINAL_VELOCITY →
      measJump c ≤ fuel →
      ∃ n c', updateIter n (.jumping c) = .running c' ∧ c'.position.y = FLOOR := by
  induction fuel with
  | zero =>
    intro c h1 h2 hm
    rcases jumping_update_shape c with ⟨hp, heq⟩ | ⟨hp, heq⟩
    · refine ⟨1, _, ?_, land_on_height_floor (c.update JUMPING_FRAMES)⟩
      show (RedHatBoyStateMachine.jumping c).update = _
      exact heq
    · exfalso
      have hvy := update_velocity_y_def c JUMPING_FRAMES
      have hpy := update_position_y_def c JUMPING_FRAMES
      have hT : TERMINAL_VELOCITY = 18 := rfl
      have hG : GRAVITY = 1 := rfl
      have hF : FLOOR = 479 := rfl
      unfold measJump at hm
      split_ifs at hvy hpy <;> omega
  | succ fuel ih =>
    intro c h1 h2 hm
    rcases jumping_update_shape c with ⟨hp, heq⟩ | ⟨hp, heq⟩
    · refine ⟨1, _, ?_, land_on_height_floor (c.update JUMPING_FRAMES)⟩
      show (RedHatBoyStateMachine.jumping c).update = _
      exact heq
    · have hvy := update_velocity_y_def c JUMPING_FRAMES
      have hpy := update_position_y_def c JUMPING_FRAMES
      have hT : TERMINAL_VELOCITY = 18 := rfl
      have hG : GRAVITY = 1 := rfl
      have hF : FLOOR = 479 := rfl
      have h1' : -27 ≤ (c.update JUMPING_FRAMES).velocity.y := by
        split_ifs at hvy <;> omega
      have h2' : (c.update JUMPING_FRAMES).velocity.y ≤ TERMINAL_VELOCITY := by
        split_ifs at hvy <;> omega
      have hm' : measJump (c.update JUMPING_FRAMES) ≤ fuel := by
        unfold measJump at hm ⊢
        split_ifs at hvy hpy <;> omega
      obtain ⟨n, c', hiter, hfl⟩ := ih (c.update JUMPING_FRAMES) h1' h2' hm'
      refine ⟨n + 1, c', ?_, hfl⟩
      show updateIter n (RedHatBoyStateMachine.jumping c).update = _
      rw [heq]
      exact hiter

/-- Claim C6: from Running with `velocity.y = 0`, the `Jump` event
produces Jumping with `velocity.y = JUMP_SPEED` (the negative impulse)
and frame 0, and after enough `Update` events for the player to come
back down the resulting state is Running with `position.y` exactly the
floor constant. -/
theorem C6_jump_returns_to_floor (c : RedHatBoyContext) (h : c.velocity.y = 0) :
    (RedHatBoyStateMachine.running c).transition .jump = .jumping (running_jump c) ∧
      (running_jump c).velocity.y = JUMP_SPEED ∧
      (running_jump c).frame = 0 ∧
      ∃ n c', updateIter n ((RedHatBoyStateMachine.running c).transition .jump) = .running c' ∧
        c'.position.y = FLOOR := by
  refine ⟨rfl, rfl, rfl, ?_⟩
  have hstart : (running_jump c).velocity.y = -27 := rfl
  obtain ⟨n, c', hiter, hfl⟩ :=
    jumping_lands (measJump (running_jump c)) (running_jump c)
      (by rw [hstart]) (by rw [hstart]; decide) (Nat.le_refl _)
  exact ⟨n, c', hiter, hfl⟩

/-- Witness for C6 at a Running player on the floor with
`velocity = (3, 0)`. -/
theorem C6_witness :
    (RedHatBoyContext.mk 0 ⟨200, 479⟩ ⟨3, 0⟩).velocity.y = 0 ∧
      ((RedHatBoyStateMachine.running (RedHatBoyContext.mk 0 ⟨200, 479⟩ ⟨3, 0⟩)).transition .jump =
          .jumping (running_jump (RedHatBoyContext.mk 0 ⟨200, 479⟩ ⟨3, 0⟩)) ∧
        (running_jump (RedHatBoyContext.mk 0 ⟨200, 479⟩ ⟨3, 0⟩)).velocity.y = JUMP_SPEED ∧
        (running_jump (RedHatBoyContext.mk 0 ⟨200, 479⟩ ⟨3, 0⟩)).frame = 0 ∧
        ∃ n c', updateIter n
              ((RedHatBoyStateMachine.running (RedHatBoyContext.mk 0 ⟨200, 479⟩ ⟨3, 0⟩)).transition .jump) =
            .running c' ∧ c'.position.y = FLOOR) :=
  ⟨rfl, C6_jump_returns_to_floor (RedHatBoyContext.mk 0 ⟨200, 479⟩ ⟨3, 0⟩) rfl⟩
